import Mathlib

/-!
# Verification of the ntsync userspace library

A shallow embedding of the ntsync crate (src/src/*.rs): the error taxonomy
(error.rs), the errno-to-error translation of each operation (event.rs,
semaphore.rs, mutex.rs, wait.rs, and the superseded errno_match! macro of
lib.rs), the creation-request builders (new_event, new_semaphore), the
wait-source validation loop and result decoding of wait_all / wait_any
(wait.rs), and the wire layout of the wait request structure.

The kernel device is external to the repository; where its behaviour decides
a statement it is either abstracted as an oracle parameter (the outcome of
one ioctl call) or, for the semaphore counter, modelled from the boundary
contract in the specification.
-/

namespace NtSync

/-! ## Errno constants (Linux, as used via libc / nix::errno::Errno) -/

def EPERM : Nat := 1
def EINTR : Nat := 4
def EBADF : Nat := 9
def EINVAL : Nat := 22
def EOVERFLOW : Nat := 75
def ETIMEDOUT : Nat := 110
def EOWNERDEAD : Nat := 130

/-! ## Error taxonomy (src/src/error.rs, plus the AlreadyClosed / DoubleClose
variants referenced by semaphore.rs and mutex.rs, whose declaring revision of
error.rs is not under src/). The IOError payload is the raw OS error code. -/

inductive Error where
  | NotExist
  | IOError (raw : Nat)
  | InvalidValue
  | SemaphoreOverflow
  | PermissionDenied
  | Timeout
  | OwnerDead
  | Interrupt
  | DuplicateEvent
  | Unknown (errno : Nat)
  | AlreadyClosed
  | DoubleClose
  deriving DecidableEq

/-- The `impl PartialEq for Error` of src/src/error.rs lines 31-45, arm by
arm: the listed pairs compare by structure, everything else falls to the
wildcard arm `(..) => false`. -/
def errorBeq : Error → Error → Bool
  | .NotExist, .NotExist => true
  | .InvalidValue, .InvalidValue => true
  | .SemaphoreOverflow, .SemaphoreOverflow => true
  | .PermissionDenied, .PermissionDenied => true
  | .Timeout, .Timeout => true
  | .OwnerDead, .OwnerDead => true
  | .Interrupt, .Interrupt => true
  | .Unknown a, .Unknown b => a == b
  | _, _ => false

/-! ## Handle kinds and owner identity -/

structure OwnerId where
  val : Nat
  deriving DecidableEq

structure Event where
  id : Nat
  deriving DecidableEq

structure Semaphore where
  id : Nat
  deriving DecidableEq

structure Mutex where
  id : Nat
  deriving DecidableEq

/-- The tagged union of wait sources (`enum EventSources` of the crate
root). -/
inductive EventSources where
  | mutex (m : Mutex)
  | semaphore (s : Semaphore)
  | event (e : Event)
  deriving DecidableEq

/-! ## Per-operation errno translation, copied match arm by match arm. -/

/-- The seven-arm errno match shared verbatim by `wait_all` / `wait_any`
(src/src/wait.rs lines 119-128 and 193-202) and by `Event::signal` /
`reset` / `pulse` / `status` and `NtSync::new_event`
(src/src/event.rs). -/
def stdErrnoToError (e : Nat) : Error :=
  if e = EINVAL then .InvalidValue
  else if e = EPERM then .PermissionDenied
  else if e = EOVERFLOW then .SemaphoreOverflow
  else if e = EINTR then .Interrupt
  else if e = EOWNERDEAD then .OwnerDead
  else if e = ETIMEDOUT then .Timeout
  else .Unknown e

/-- `Semaphore::release` error arm (src/src/semaphore.rs lines 72-82). -/
def semReleaseErrnoToError (e : Nat) : Error :=
  if e = EOVERFLOW then .SemaphoreOverflow
  else if e = EBADF then .AlreadyClosed
  else .Unknown e

/-- `Semaphore::read` error arm (src/src/semaphore.rs lines 126-133). -/
def semReadErrnoToError (e : Nat) : Error :=
  if e = EBADF then .AlreadyClosed
  else .Unknown e

/-- `Semaphore::delete` failure handling of `libc::close`
(src/src/semaphore.rs lines 95-116); errno 5 is EIO. -/
def semDeleteErrnoToError (e : Nat) : Error :=
  if e = EBADF then .AlreadyClosed
  else if e = EINTR then .Interrupt
  else if e = 5 then .IOError 5
  else .Unknown e

/-- `Mutex::delete` failure handling of `libc::close`
(src/src/mutex.rs lines 139-159); errno 5 is EIO. -/
def mutexDeleteErrnoToError (e : Nat) : Error :=
  if e = EBADF then .DoubleClose
  else if e = EINTR then .Interrupt
  else if e = 5 then .IOError 5
  else .Unknown e

/-- `Mutex::unlock` error arm (src/src/mutex.rs lines 80-90). -/
def mutexUnlockErrnoToError (e : Nat) : Error :=
  if e = EINVAL then .InvalidValue
  else if e = EPERM then .PermissionDenied
  else .Unknown e

/-- `Mutex::kill` error arm (src/src/mutex.rs lines 121-132). -/
def mutexKillErrnoToError (e : Nat) : Error :=
  if e = EINVAL then .InvalidValue
  else if e = EPERM then .PermissionDenied
  else .Unknown e

/-- `Mutex::read` error arm (src/src/mutex.rs lines 100-108). -/
def mutexReadErrnoToError (e : Nat) : Error :=
  if e = EOWNERDEAD then .OwnerDead
  else .Unknown e

/-- Outcome of the superseded `errno_match!` macro of src/src/lib.rs
lines 48-71: `ok` when errno is 0 (fall through), a returned error for the
six recognised codes, and `panics` for the `unimplemented!` arm reached on
every other errno. -/
inductive ErrnoOutcome where
  | ok
  | err (e : Error)
  | panics
  deriving DecidableEq

/-- The body of `errno_match!` (src/src/lib.rs lines 48-71), branch by
branch. -/
def errnoMatch (errno : Nat) : ErrnoOutcome :=
  if errno = 0 then .ok
  else if errno = EINVAL then .err .InvalidValue
  else if errno = EPERM then .err .PermissionDenied
  else if errno = EOVERFLOW then .err .SemaphoreOverflow
  else if errno = EINTR then .err .Interrupt
  else if errno = EOWNERDEAD then .err .OwnerDead
  else if errno = ETIMEDOUT then .err .Timeout
  else .panics

/-! ## Creation requests -/

/-- `struct EventStatus` of src/src/event.rs lines 20-27: field order is
`manual` first, then `signaled` (matching the device's event-args layout).
Values are u32 flags (only 0 / 1 are produced by the library). -/
structure EventStatus where
  manual : Nat
  signaled : Nat
  deriving DecidableEq

/-- The constructor generated by `derive_new` for `EventStatus`: positional
arguments in field declaration order, i.e. `new(manual, signaled)`. -/
def EventStatus.new (manual signaled : Nat) : EventStatus :=
  { manual := manual, signaled := signaled }

/-- The creation request built by `NtSync::new_event(signaled, manual)`
(src/src/event.rs line 149): `EventStatus::new(signaled as u32, manual as
u32)` — the first (manual) position receives the `signaled` argument and the
second (signaled) position receives the `manual` argument. -/
def newEventArgs (signaled manual : Bool) : EventStatus :=
  EventStatus.new (if signaled then 1 else 0) (if manual then 1 else 0)

def u32MAX : Nat := 2 ^ 32 - 1

/-- Rust's `u32::clamp(self, min, max)`. -/
def rustClamp (v lo hi : Nat) : Nat :=
  if v < lo then lo
  else if v > hi then hi
  else v

/-- `struct SemaphoreStatus` of src/src/semaphore.rs lines 29-40: `count`
then `max`. -/
structure SemaphoreStatus where
  count : Nat
  max : Nat
  deriving DecidableEq

/-- The `derive_new` constructor of `SemaphoreStatus`: the `count` field
carries `#[new(value = "max")]`, so `new` takes only `max` and initialises
`count` with it. -/
def SemaphoreStatus.new (mx : Nat) : SemaphoreStatus :=
  { count := mx, max := mx }

/-- The creation request built by `NtSync::new_semaphore(maximum)`
(src/src/semaphore.rs line 142): `SemaphoreStatus::new(maximum.clamp(1,
u32::MAX))`. -/
def newSemaphoreArgs (maximum : Nat) : SemaphoreStatus :=
  SemaphoreStatus.new (rustClamp maximum 1 u32MAX)

/-! ## Wait multiplexer (src/src/wait.rs)

`wait_all` and `wait_any` share the same local validation loop over the
source collection (the repetition at lines 81-102 and 150-170): Events are
rejected with `DuplicateEvent` when their handle equals a non-zero alert
handle, Mutexes require a supplied non-zero owner, and the surviving raw
handles are gathered in iteration order. Only after the loop completes is
the ioctl issued; its outcome (the kernel writing the result index, or an
errno) is abstracted as an oracle parameter of type `Except Nat Nat`, since
the kernel is external to the repository (timeout and flags influence only
that outcome). -/

/-- `alert.unwrap_or(Event { id: 0 }).id` (src/src/wait.rs lines 76-80). -/
def alertId : Option Event → Nat
  | none => 0
  | some e => e.id

/-- `owner.is_none_or(|val| val.0 == 0)` (src/src/wait.rs line 95). -/
def ownerMissing : Option OwnerId → Bool
  | none => true
  | some o => o.val == 0

/-- The validation loop of `wait_all` / `wait_any` (src/src/wait.rs lines
81-102): scans the sources in iteration order, failing fast with
`DuplicateEvent` or `InvalidValue`, otherwise collecting the raw handle
values. -/
def collectIds (alertid : Nat) (owner : Option OwnerId) : List EventSources → Except Error (List Nat)
  | [] => .ok []
  | .event e :: rest =>
    if alertid ≠ 0 ∧ alertid = e.id then .error .DuplicateEvent
    else
      match collectIds alertid owner rest with
      | .error err => .error err
      | .ok ids => .ok (e.id :: ids)
  | .semaphore s :: rest =>
    match collectIds alertid owner rest with
    | .error err => .error err
    | .ok ids => .ok (s.id :: ids)
  | .mutex m :: rest =>
    if ownerMissing owner then .error .InvalidValue
    else
      match collectIds alertid owner rest with
      | .error err => .error err
      | .ok ids => .ok (m.id :: ids)

/-- Result of `wait_all` (src/src/wait.rs lines 42-48). -/
structure WaitAllStatus where
  alerted : Bool
  objects : List EventSources
  deriving DecidableEq

/-- Result of `wait_any` (src/src/wait.rs lines 50-58). Its doc comment
describes `index` as the number of the event that stopped the wait, 0 if
the alert stopped it. -/
structure WaitAnyStatus where
  alerted : Bool
  objects : List EventSources
  index : Nat
  deriving DecidableEq

/-- `NtSync::wait_all` (src/src/wait.rs lines 65-131). `kernel` is the
outcome of the single `ntsync_wait_all` ioctl: `.ok idx` when it succeeds
with `idx` written into `args.index`, `.error errno` otherwise. -/
def wait_all (kernel : Except Nat Nat) (sources : List EventSources)
    (owner : Option OwnerId) (alert : Option Event) : Except Error WaitAllStatus :=
  match collectIds (alertId alert) owner sources with
  | .error e => .error e
  | .ok ids =>
    match kernel with
    | .ok idx => .ok { alerted := idx == ids.length, objects := sources }
    | .error errno => .error (stdErrnoToError errno)

/-- `NtSync::wait_any` (src/src/wait.rs lines 134-205). On kernel success
the status is built exactly as at lines 183-191: `alerted` compares the
written index with the count, and the `index` field is 0 when alerted and
otherwise `args.count` (the submitted count, as the source reads). -/
def wait_any (kernel : Except Nat Nat) (sources : List EventSources)
    (owner : Option OwnerId) (alert : Option Event) : Except Error WaitAnyStatus :=
  match collectIds (alertId alert) owner sources with
  | .error e => .error e
  | .ok ids =>
    match kernel with
    | .ok idx =>
      .ok { alerted := idx == ids.length,
            objects := sources,
            index := if idx == ids.length then 0 else ids.length }
    | .error errno => .error (stdErrnoToError errno)

/-! ## Wire layout of the wait request -/

/-- Field names and byte widths of `struct WaitArgs` in src/src/wait.rs
lines 28-40, in declaration order (repr(C); `objs` is a u64-sized
pointer). -/
def waitArgsLayout : List (String × Nat) :=
  [("timeout", 8), ("objs", 8), ("count", 4), ("index", 4),
   ("flags", 4), ("owner", 4), ("alert", 4), ("pad", 4)]

/-- Field names and byte widths of the superseded `struct WaitArgs` in
src/src/internal.rs lines 72-83, in declaration order. -/
def internalWaitArgsLayout : List (String × Nat) :=
  [("timeout", 8), ("objs", 8), ("count", 4), ("owner", 4),
   ("index", 4), ("alert", 4), ("flags", 4), ("pad", 4)]

/-- Modelled from the spec: the field order the boundary-contract table of
the specification prescribes for the wait request — timeout, object-handle
pointer, count, owner, result-index, alert-handle, flags, padding. -/
def specWaitArgsLayout : List (String × Nat) :=
  [("timeout", 8), ("objs", 8), ("count", 4), ("owner", 4),
   ("index", 4), ("alert", 4), ("flags", 4), ("pad", 4)]

/-- Byte offset of a named field in a layout (all fields here are naturally
aligned, so offsets are running sums of the widths). -/
def fieldOffset : List (String × Nat) → String → Option Nat
  | [], _ => none
  | (n, sz) :: rest, name =>
    if n = name then some 0
    else (fieldOffset rest name).map (fun off => sz + off)

/-! ## Semaphore release (src/src/semaphore.rs lines 65-85)

The counter itself lives in the kernel object; its transition is modelled
from the boundary contract of the specification. The userspace wrapper
forwards `amount` and translates the outcome. -/

/-- Kernel-side semaphore state: current `count` and `max`. -/
structure SemState where
  count : Nat
  max : Nat
  deriving DecidableEq

/-- Modelled from the spec: the device's release semantics — the release
request succeeds when the incremented count stays within `max`, writing the
previous count back into the argument; otherwise it fails with EOVERFLOW and
leaves the counter untouched. -/
def kernelSemRelease (st : SemState) (amount : Nat) : Except Nat (Nat × SemState) :=
  if st.count + amount ≤ st.max then .ok (st.count, ⟨st.count + amount, st.max⟩)
  else .error EOVERFLOW

/-- `Semaphore::release` end to end: the kernel transition composed with the
errno translation of src/src/semaphore.rs lines 69-84. Returns the call's
result, paired with the kernel state after the call. -/
def semaphoreRelease (st : SemState) (amount : Nat) : Except Error Nat × SemState :=
  match kernelSemRelease st amount with
  | .ok (prev, st2) => (.ok prev, st2)
  | .error errno => (.error (semReleaseErrnoToError errno), st)

/-! ## Theorems -/

/-- C1: On a successful `wait_any` that was not ended by the alert, the code
does NOT report the kernel's result index: with two submitted sources and the
kernel writing result index 0, the returned `WaitAnyStatus.index` is 2 (the
submitted count), although the satisfied position — which the claim and the
struct's own doc comment prescribe — is 0. The `alerted` flag part of the
claim (true exactly when the written index equals the count) does hold, as
the second and third conjuncts record for both outcomes. -/
theorem wait_any_index_is_count_not_kernel_index :
    wait_any (.ok 0) [.event ⟨1⟩, .event ⟨2⟩] none none
      = .ok { alerted := false, objects := [.event ⟨1⟩, .event ⟨2⟩], index := 2 } ∧
    (2 : Nat) ≠ 0 ∧
    wait_any (.ok 2) [.event ⟨1⟩, .event ⟨2⟩] none none
      = .ok { alerted := true, objects := [.event ⟨1⟩, .event ⟨2⟩], index := 0 } :=
  ⟨rfl, by decide, rfl⟩

/-- C2: the closed-handle failure signal EBADF, reported by the device for
every operation on a deleted handle, is translated inconsistently: the
Event operations (signal / reset / pulse / status) and the wait calls map it
to `Unknown 9`, the Mutex operations (unlock / kill / read) map it to
`Unknown 9`, a second `Mutex::delete` maps it to `DoubleClose`, and only the
Semaphore operations (release / read / delete) map it to the `AlreadyClosed`
error the claim — and the repository's clean_up tests — require. -/
theorem deleted_handle_error_kinds_diverge :
    stdErrnoToError EBADF = .Unknown 9 ∧
    mutexUnlockErrnoToError EBADF = .Unknown 9 ∧
    mutexKillErrnoToError EBADF = .Unknown 9 ∧
    mutexReadErrnoToError EBADF = .Unknown 9 ∧
    mutexDeleteErrnoToError EBADF = .DoubleClose ∧
    semReleaseErrnoToError EBADF = .AlreadyClosed ∧
    semReadErrnoToError EBADF = .AlreadyClosed ∧
    semDeleteErrnoToError EBADF = .AlreadyClosed ∧
    Error.Unknown 9 ≠ Error.AlreadyClosed ∧
    Error.DoubleClose ≠ Error.AlreadyClosed := by
  decide

/-- C3: `new_event(signaled, manual)` swaps the two flags: requesting a
signaled auto-reset event (`signaled = true, manual = false`) builds a
request with `manual = 1, signaled = 0`, and requesting an unsignaled
manual-reset event builds `manual = 0, signaled = 1` — the opposite of the
claim, of the spec's table, and of the function's own doc comment. -/
theorem new_event_swaps_signaled_and_manual :
    newEventArgs true false = { manual := 1, signaled := 0 } ∧
    newEventArgs false true = { manual := 0, signaled := 1 } := by
  decide

/-- C4 counterexample: the `WaitArgs` structure submitted by `wait_all` and
`wait_any` (src/src/wait.rs) does not lay out its fields in the order the
claim states. -/
theorem wait_args_layout_differs_from_claimed :
    waitArgsLayout ≠ specWaitArgsLayout := by
  decide

/-- C4 (amended): the submitted `WaitArgs` of src/src/wait.rs is laid out,
with byte offsets, as timeout 0, objs 8, count 16, index 20, flags 24,
owner 28, alert 32, pad 36 (total order timeout, objs, count, index, flags,
owner, alert, pad); the order the claim states is found only in the
superseded `WaitArgs` of src/src/internal.rs. -/
theorem wait_args_actual_field_offsets :
    fieldOffset waitArgsLayout "timeout" = some 0 ∧
    fieldOffset waitArgsLayout "objs" = some 8 ∧
    fieldOffset waitArgsLayout "count" = some 16 ∧
    fieldOffset waitArgsLayout "index" = some 20 ∧
    fieldOffset waitArgsLayout "flags" = some 24 ∧
    fieldOffset waitArgsLayout "owner" = some 28 ∧
    fieldOffset waitArgsLayout "alert" = some 32 ∧
    fieldOffset waitArgsLayout "pad" = some 36 ∧
    internalWaitArgsLayout = specWaitArgsLayout := by
  decide

/-- C5: the superseded `errno_match!` macro of src/src/lib.rs reaches
`unimplemented!` — a panic — on every errno outside its six recognised
codes (here EBADF = 9), instead of returning `Unknown(9)` as the claim, the
spec, and the doc comment of `Error::Unknown` require; the errno match of
the current wait / event modules does preserve the raw value. -/
theorem errno_match_panics_on_unrecognized :
    errnoMatch EBADF = .panics ∧
    errnoMatch 3 = .panics ∧
    stdErrnoToError EBADF = .Unknown 9 ∧
    stdErrnoToError 3 = .Unknown 3 := by
  decide

/-- C6: for every u32 `maximum`, the creation request of
`new_semaphore(maximum)` has its `max` field equal to `maximum` clamped into
`[1, u32::MAX]` — 0 becomes 1, every other value is unchanged — and its
initial `count` field equal to that clamped max. -/
theorem new_semaphore_clamped_max_and_full_count (maximum : Nat)
    (h : maximum ≤ u32MAX) :
    (newSemaphoreArgs maximum).max = (if maximum = 0 then 1 else maximum) ∧
    (newSemaphoreArgs maximum).count = (newSemaphoreArgs maximum).max := by
  refine ⟨?_, rfl⟩
  simp only [newSemaphoreArgs, SemaphoreStatus.new, rustClamp]
  split_ifs <;> omega

/-- Witness for C6 at `maximum = 0` and (via the clamp identity) the
resulting request `count = max = 1`. -/
theorem new_semaphore_clamped_max_and_full_count_witness :
    (0 : Nat) ≤ u32MAX ∧
    ((newSemaphoreArgs 0).max = (if (0 : Nat) = 0 then 1 else 0) ∧
     (newSemaphoreArgs 0).count = (newSemaphoreArgs 0).max) :=
  ⟨Nat.zero_le _, new_semaphore_clamped_max_and_full_count 0 (Nat.zero_le _)⟩

/-- C9: `release(amount)` on a semaphore with count `c` and maximum `m`
succeeds returning the pre-release count exactly when `c + amount ≤ m`,
leaving the counter at `c + amount`; when `c + amount > m` it returns
`SemaphoreOverflow` and the counter is unchanged. -/
theorem semaphore_release_overflow_checked (c m a : Nat) :
    (c + a ≤ m → semaphoreRelease ⟨c, m⟩ a = (.ok c, ⟨c + a, m⟩)) ∧
    (m < c + a → semaphoreRelease ⟨c, m⟩ a = (.error .SemaphoreOverflow, ⟨c, m⟩)) := by
  constructor
  · intro h
    simp [semaphoreRelease, kernelSemRelease, h]
  · intro h
    simp [semaphoreRelease, kernelSemRelease, Nat.not_le.mpr h, semReleaseErrnoToError,
      EOVERFLOW, EBADF]

/-- Witness for C9, the spec's own example with `max = 3`: a first
`release(2)` from count 0 returns the previous count 0 and leaves count 2; a
second `release(2)` overflows, returns `SemaphoreOverflow`, and leaves
`count = 2, max = 3` unchanged. -/
theorem semaphore_release_overflow_checked_witness :
    semaphoreRelease ⟨0, 3⟩ 2 = (.ok 0, ⟨2, 3⟩) ∧
    semaphoreRelease ⟨2, 3⟩ 2 = (.error .SemaphoreOverflow, ⟨2, 3⟩) :=
  ⟨(semaphore_release_overflow_checked 0 3 2).1 (by decide),
   (semaphore_release_overflow_checked 2 3 2).2 (by decide)⟩

/-- C10: equality on `Error` as implemented in src/src/error.rs is not
reflexive — `DuplicateEvent == DuplicateEvent` and `IOError(e) ==
IOError(f)` both fall to the wildcard arm and evaluate to false — while
every other variant of that file's enum compares equal to itself
(`Unknown` by payload equality). -/
theorem error_partial_eq_not_reflexive :
    errorBeq .DuplicateEvent .DuplicateEvent = false ∧
    (∀ e f : Nat, errorBeq (.IOError e) (.IOError f) = false) ∧
    errorBeq .NotExist .NotExist = true ∧
    errorBeq .InvalidValue .InvalidValue = true ∧
    errorBeq .SemaphoreOverflow .SemaphoreOverflow = true ∧
    errorBeq .PermissionDenied .PermissionDenied = true ∧
    errorBeq .Timeout .Timeout = true ∧
    errorBeq .OwnerDead .OwnerDead = true ∧
    errorBeq .Interrupt .Interrupt = true ∧
    (∀ a b : Nat, errorBeq (.Unknown a) (.Unknown b) = (a == b)) :=
  ⟨rfl, fun _ _ => rfl, rfl, rfl, rfl, rfl, rfl, rfl, rfl, fun _ _ => rfl⟩

/-- If the alert handle is non-zero, some source Event carries it, and every
Mutex source is accompanied by a present, non-zero owner, then the
validation loop fails with `DuplicateEvent` — whatever the order the
remaining checks would run in. -/
theorem collectIds_duplicate (alertid : Nat) (owner : Option OwnerId) (a : Event)
    (h0 : alertid ≠ 0) (ha : alertid = a.id) :
    ∀ sources : List EventSources, EventSources.event a ∈ sources →
      (∀ m : Mutex, EventSources.mutex m ∈ sources → ownerMissing owner = false) →
      collectIds alertid owner sources = .error .DuplicateEvent := by
  intro sources
  induction sources with
  | nil => intro hmem _; cases hmem
  | cons s rest ih =>
    intro hmem hmx
    cases s with
    | event e =>
      by_cases he : alertid = e.id
      · have h0e : e.id ≠ 0 := he ▸ h0
        simp [collectIds, he, h0e]
      · have hmem2 : EventSources.event a ∈ rest := by
          rcases List.mem_cons.mp hmem with h | h
          · cases h; exact absurd ha he
          · exact h
        have hrec := ih hmem2 (fun m hm => hmx m (List.mem_cons_of_mem _ hm))
        simp [collectIds, he, hrec]
    | semaphore s2 =>
      have hmem2 : EventSources.event a ∈ rest := by
        rcases List.mem_cons.mp hmem with h | h
        · cases h
        · exact h
      have hrec := ih hmem2 (fun m hm => hmx m (List.mem_cons_of_mem _ hm))
      simp [collectIds, hrec]
    | mutex m =>
      have hmo : ownerMissing owner = false := hmx m (List.mem_cons_self _ _)
      have hmem2 : EventSources.event a ∈ rest := by
        rcases List.mem_cons.mp hmem with h | h
        · cases h
        · exact h
      have hrec := ih hmem2 (fun m2 hm => hmx m2 (List.mem_cons_of_mem _ hm))
      simp [collectIds, hmo, hrec]

/-- C7 (amended): a `wait_all` or `wait_any` call whose alert is an Event
with non-zero handle and whose source set contains an Event with that same
handle returns `DuplicateEvent` — for every kernel outcome, i.e. decided
locally before any kernel interaction — provided every Mutex source comes
with a present non-zero owner (otherwise the iteration order of the source
set decides whether `DuplicateEvent` or `InvalidValue` is reported). -/
theorem wait_duplicate_event_before_kernel
    (kernelA kernelB : Except Nat Nat) (sources : List EventSources)
    (owner : Option OwnerId) (a : Event) (h0 : a.id ≠ 0)
    (hmem : EventSources.event a ∈ sources)
    (hmx : ∀ m : Mutex, EventSources.mutex m ∈ sources → ownerMissing owner = false) :
    wait_all kernelA sources owner (some a) = .error .DuplicateEvent ∧
    wait_any kernelB sources owner (some a) = .error .DuplicateEvent := by
  have hc := collectIds_duplicate a.id owner a h0 rfl sources hmem hmx
  constructor <;> simp [wait_all, wait_any, alertId, hc]

/-- Witness for C7's amended theorem: source set `{Event 5}` with alert
Event 5, no owner, on two arbitrary fixed kernel outcomes. -/
theorem wait_duplicate_event_before_kernel_witness :
    wait_all (.ok 0) [.event ⟨5⟩] none (some ⟨5⟩) = .error .DuplicateEvent ∧
    wait_any (.error 110) [.event ⟨5⟩] none (some ⟨5⟩) = .error .DuplicateEvent :=
  wait_duplicate_event_before_kernel (.ok 0) (.error 110) [.event ⟨5⟩] none ⟨5⟩
    (by decide) (by decide) (fun m hm => by simp at hm)

/-- C7 counterexample: an alert Event whose handle value is 0 is treated as
"no alert" by the guard `alertid != 0 && alertid == event.id`, so a source
Event with the same handle 0 is NOT rejected with `DuplicateEvent`; the call
proceeds to the kernel and, on success, returns a status. -/
theorem wait_any_alert_id_zero_escapes_duplicate_check :
    wait_any (.ok 0) [.event ⟨0⟩] none (some ⟨0⟩)
      = .ok { alerted := false, objects := [.event ⟨0⟩], index := 1 } ∧
    wait_any (.ok 0) [.event ⟨0⟩] none (some ⟨0⟩) ≠ .error .DuplicateEvent :=
  ⟨rfl, fun h => Except.noConfusion h⟩

/-- If the owner is absent or zero, some Mutex is among the sources, and no
source Event matches a non-zero alert handle, the validation loop fails
with `InvalidValue`. -/
theorem collectIds_missing_owner (alertid : Nat) (owner : Option OwnerId)
    (howner : ownerMissing owner = true) :
    ∀ sources : List EventSources, (∃ m : Mutex, EventSources.mutex m ∈ sources) →
      (∀ e : Event, EventSources.event e ∈ sources → ¬(alertid ≠ 0 ∧ alertid = e.id)) →
      collectIds alertid owner sources = .error .InvalidValue := by
  intro sources
  induction sources with
  | nil => rintro ⟨m, hm⟩ _; cases hm
  | cons s rest ih =>
    rintro ⟨m, hm⟩ hev
    cases s with
    | event e =>
      have hne := hev e (List.mem_cons_self _ _)
      have hm2 : EventSources.mutex m ∈ rest := by
        rcases List.mem_cons.mp hm with h | h
        · cases h
        · exact h
      have hrec := ih ⟨m, hm2⟩ (fun e2 he2 => hev e2 (List.mem_cons_of_mem _ he2))
      simp [collectIds, hne, hrec]
    | semaphore s2 =>
      have hm2 : EventSources.mutex m ∈ rest := by
        rcases List.mem_cons.mp hm with h | h
        · cases h
        · exact h
      have hrec := ih ⟨m, hm2⟩ (fun e2 he2 => hev e2 (List.mem_cons_of_mem _ he2))
      simp [collectIds, hrec]
    | mutex m2 =>
      simp [collectIds, howner]

/-- C8 (amended): a `wait_all` or `wait_any` call whose source set contains
a Mutex while the owner argument is `None` or the zero `OwnerId` returns
`InvalidValue` — for every kernel outcome, i.e. decided locally before any
kernel interaction — provided no source Event's handle equals a non-zero
alert handle (otherwise the iteration order of the source set decides
whether `InvalidValue` or `DuplicateEvent` is reported). -/
theorem wait_mutex_missing_owner_invalid_value
    (kernelA kernelB : Except Nat Nat) (sources : List EventSources)
    (owner : Option OwnerId) (alert : Option Event) (m : Mutex)
    (hmem : EventSources.mutex m ∈ sources)
    (howner : ownerMissing owner = true)
    (hev : ∀ e : Event, EventSources.event e ∈ sources →
      ¬(alertId alert ≠ 0 ∧ alertId alert = e.id)) :
    wait_all kernelA sources owner alert = .error .InvalidValue ∧
    wait_any kernelB sources owner alert = .error .InvalidValue := by
  have hc := collectIds_missing_owner (alertId alert) owner howner sources ⟨m, hmem⟩ hev
  constructor <;> simp [wait_all, wait_any, hc]

/-- Witness for C8's amended theorem: source set `{Mutex 7}`, no owner, no
alert, both for `owner = None` and for the zero `OwnerId`. -/
theorem wait_mutex_missing_owner_invalid_value_witness :
    (wait_all (.ok 0) [.mutex ⟨7⟩] none none = .error .InvalidValue ∧
     wait_any (.error 110) [.mutex ⟨7⟩] none none = .error .InvalidValue) ∧
    (wait_all (.ok 0) [.mutex ⟨7⟩] (some ⟨0⟩) none = .error .InvalidValue ∧
     wait_any (.error 110) [.mutex ⟨7⟩] (some ⟨0⟩) none = .error .InvalidValue) :=
  ⟨wait_mutex_missing_owner_invalid_value (.ok 0) (.error 110) [.mutex ⟨7⟩] none none ⟨7⟩
      (by decide) rfl (fun e he => by simp at he),
   wait_mutex_missing_owner_invalid_value (.ok 0) (.error 110) [.mutex ⟨7⟩] (some ⟨0⟩) none ⟨7⟩
      (by decide) rfl (fun e he => by simp at he)⟩

/-- C8 counterexample: with a Mutex present and no owner supplied, the call
does not necessarily return `InvalidValue`: when a source Event matching
the alert handle is scanned first, the loop fails with `DuplicateEvent`
instead. -/
theorem wait_missing_owner_can_return_duplicate_event :
    wait_any (.ok 0) [.event ⟨5⟩, .mutex ⟨7⟩] none (some ⟨5⟩) = .error .DuplicateEvent ∧
    Error.DuplicateEvent ≠ Error.InvalidValue :=
  ⟨rfl, by decide⟩

end NtSync
